import Mathlib

/-!
Verification of the coordinate-to-field matching and image-overlay engine
of the fill.ai repository (backend/server/image_generator.py and
backend/server/enhanced_coordinate_extractor.py), as a shallow embedding.

Python strings are modelled as lists of characters so that the string
operations of the source (lower, substring containment, whitespace split,
strip) are executable by structural recursion.  Python floats are modelled
as rationals.  Python dicts iterated in insertion order are modelled as
association lists.  A render pass is modelled as the list of drawing
operations it issues together with the schema object it leaves behind,
so that skipping, colors and mutation are all observable.
-/

namespace FillAI

/-- Python strings, modelled as lists of characters. -/
abbrev PyStr := List Char

/-- Python str.lower, character by character. -/
def pyLower (s : PyStr) : PyStr := s.map Char.toLower

/-- Helper for substring search: does the second list start with the first. -/
def startsWith : PyStr → PyStr → Bool
  | [], _ => true
  | _ :: _, [] => false
  | a :: as, b :: bs => a == b && startsWith as bs

/-- Python substring containment: needle in hay. -/
def pyContains (hay needle : PyStr) : Bool :=
  match hay with
  | [] => needle.isEmpty
  | _ :: rest => startsWith needle hay || pyContains rest needle

/-- Accumulator loop for whitespace splitting. -/
def splitWsAux : PyStr → PyStr → List PyStr
  | [], acc => if acc.isEmpty then [] else [acc.reverse]
  | c :: rest, acc =>
    if c.isWhitespace then
      if acc.isEmpty then splitWsAux rest [] else acc.reverse :: splitWsAux rest []
    else splitWsAux rest (c :: acc)

/-- Python str.split with no separator: split on whitespace runs, no empty tokens. -/
def pySplitWs (s : PyStr) : List PyStr := splitWsAux s []

/-- Python str.strip: drop leading and trailing whitespace. -/
def pyStrip (s : PyStr) : PyStr :=
  ((s.dropWhile Char.isWhitespace).reverse.dropWhile Char.isWhitespace).reverse

/-- A schema field as read by image_generator.py: the code reads the keys
label, type and value with field.get; a name key may be present in the
dict but the matching code never reads it. -/
structure Field where
  label : PyStr
  name : Option PyStr
  type : Option PyStr
  value : Option PyStr
  deriving DecidableEq, Repr

/-- The coordinate map: a Python dict from candidate label to a normalized
coordinate pair, iterated in insertion order. -/
abbrev CoordMap := List (PyStr × ℚ × ℚ)

/-- The semantic tier table of find_best_coordinate_match, in dict order
(src/backend/server/image_generator.py, semantic_matches). -/
def semanticMatches : List (PyStr × List PyStr) :=
  [("name".data, ["name".data, "legal".data, "business".data]),
   ("address".data, ["address".data, "street".data]),
   ("city".data, ["city".data, "town".data]),
   ("state".data, ["state".data, "province".data]),
   ("zip".data, ["zip".data, "postal".data]),
   ("ssn".data, ["ssn".data, "social".data, "security".data]),
   ("ein".data, ["ein".data, "employer".data, "identification".data])]

/-- The condition of the second loop of find_best_coordinate_match: the
containment checks and the token-overlap checks are combined with or in
a single pass over the candidates. -/
def combinedTierPred (fieldLabel coordLabelLower : PyStr) : Bool :=
  pyContains fieldLabel coordLabelLower ||
  pyContains coordLabelLower fieldLabel ||
  (pySplitWs fieldLabel).any (fun w => pyContains coordLabelLower w) ||
  (pySplitWs coordLabelLower).any (fun w => pyContains fieldLabel w)

/-- Embedding of FormImageGenerator.find_best_coordinate_match
(src/backend/server/image_generator.py lines 66 to 112): first a loop
looking for an exact case-insensitive match against the field label, then
one combined loop of containment and token-overlap checks, then the
semantic keyword tier; each loop returns the first candidate that fires. -/
def findBestCoordinateMatch (field : Field) (m : CoordMap) : Option (ℚ × ℚ) :=
  let fieldLabel := pyLower field.label
  match m.find? (fun p => pyLower p.1 == fieldLabel) with
  | some p => some p.2
  | none =>
    match m.find? (fun p => combinedTierPred fieldLabel (pyLower p.1)) with
    | some p => some p.2
    | none =>
      semanticMatches.findSome? (fun sm =>
        if sm.2.any (fun k => pyContains fieldLabel k) then
          (m.find? (fun p => sm.2.any (fun k => pyContains (pyLower p.1) k))).map Prod.snd
        else none)

/-- Embedding of FormImageGenerator.estimate_field_position
(src/backend/server/image_generator.py lines 30 to 64).  The source also
reads the field type but never uses it.  Returns pixel coordinates. -/
def estimateFieldPosition (field : Field) (imageWidth imageHeight : ℚ) : ℚ × ℚ :=
  let label := pyLower field.label
  if pyContains label "name".data then (imageWidth * 0.3, imageHeight * 0.15)
  else if pyContains label "address".data then (imageWidth * 0.3, imageHeight * 0.25)
  else if pyContains label "city".data then (imageWidth * 0.3, imageHeight * 0.35)
  else if pyContains label "state".data then (imageWidth * 0.3, imageHeight * 0.45)
  else if pyContains label "zip".data || pyContains label "postal".data then
    (imageWidth * 0.3, imageHeight * 0.55)
  else if pyContains label "ssn".data || pyContains label "social".data then
    (imageWidth * 0.3, imageHeight * 0.65)
  else if pyContains label "ein".data || pyContains label "employer".data then
    (imageWidth * 0.3, imageHeight * 0.75)
  else (imageWidth * 0.3, imageHeight * 0.85)

/-- The keywords consulted by estimate_field_position, used to state when
the default bottom-of-page branch is taken. -/
def estimateKeywords : List PyStr :=
  ["name".data, "address".data, "city".data, "state".data, "zip".data,
   "postal".data, "ssn".data, "social".data, "ein".data, "employer".data]

/-- Fill and outline colors used by the renderer. -/
inductive Color where
  | black
  | red
  | blue
  deriving DecidableEq, Repr

/-- One drawing operation issued to the PIL draw context.  A text op draws
the value at the given pixel anchor with the given fill; a textRect op
draws the thin rectangle around the text extent of the value anchored at
the given position (the extent itself is computed by the font library). -/
inductive DrawOp where
  | text (pos : ℚ × ℚ) (value : PyStr) (fill : Color)
  | textRect (pos : ℚ × ℚ) (value : PyStr) (outline : Color)
  deriving DecidableEq, Repr

/-- The last-name keyword variations of the positional adjustment
(src/backend/server/image_generator.py line 202, also
src/backend/adjust_last_name.py line 24). -/
def lastNameVariations : List PyStr :=
  ["last_name".data, "lastname".data, "last name".data,
   "surname".data, "family_name".data]

/-- Does the lowered label contain one of the last-name variations
(the condition at src/backend/server/image_generator.py line 202). -/
def hasLastNameKeyword (label : PyStr) : Bool :=
  lastNameVariations.any (fun v => pyContains (pyLower label) v)

/-- Per-field body of generate_filled_image_with_coordinates
(src/backend/server/image_generator.py lines 191 to 219): skip when the
value is missing, empty or whitespace-only; otherwise match, apply the
last-name adjustment to the normalized coordinate, denormalize by the
image dimensions and draw text plus rectangle in black and blue; when no
match is found draw red text at the heuristic estimate, with no
rectangle. -/
def renderFieldWithCoordinates (field : Field) (m : CoordMap)
    (imageWidth imageHeight : ℚ) : List DrawOp :=
  match field.value with
  | none => []
  | some v =>
    if (pyStrip v).isEmpty then []
    else
      match findBestCoordinateMatch field m with
      | some coords =>
        let coords :=
          if hasLastNameKeyword field.label then (coords.1, coords.2 + 0.05)
          else coords
        let x := coords.1 * imageWidth
        let y := coords.2 * imageHeight
        [DrawOp.text (x, y) v Color.black, DrawOp.textRect (x, y) v Color.blue]
      | none =>
        [DrawOp.text (estimateFieldPosition field imageWidth imageHeight) v Color.red]

/-- Per-field body of generate_filled_image
(src/backend/server/image_generator.py lines 140 to 153): skip empty
values, otherwise draw text plus rectangle at the heuristic estimate. -/
def renderFieldHeuristic (field : Field) (imageWidth imageHeight : ℚ) : List DrawOp :=
  match field.value with
  | none => []
  | some v =>
    if (pyStrip v).isEmpty then []
    else
      let pos := estimateFieldPosition field imageWidth imageHeight
      [DrawOp.text pos v Color.black, DrawOp.textRect pos v Color.blue]

/-- A section of a sectioned schema; section.get with default gives its
field list. -/
structure FormSection where
  fields : List Field
  deriving DecidableEq, Repr

/-- A filled schema dict: an optional top-level fields list and an
optional sections list, each none when the key is absent. -/
structure Schema where
  fields : Option (List Field)
  sections : Option (List FormSection)
  deriving DecidableEq, Repr

/-- Embedding of the field collection prologue shared by
generate_filled_image and generate_filled_image_with_coordinates
(src/backend/server/image_generator.py lines 133 to 137 and 183 to 187):
fields is schema.get of the fields key with default empty, and when that
list is falsy and a sections key exists the section field lists are
appended to it.  Because dict.get returns the stored list itself, the
append writes into the schema whenever the fields key is present; the
returned pair is the field list actually used and the schema object as it
stands after the prologue. -/
def collectFields (s : Schema) : List Field × Schema :=
  match s.fields with
  | some (f :: fs) => (f :: fs, s)
  | some [] =>
    match s.sections with
    | some secs =>
      let flat := secs.flatMap FormSection.fields
      (flat, Schema.mk (some flat) s.sections)
    | none => ([], s)
  | none =>
    match s.sections with
    | some secs => (secs.flatMap FormSection.fields, s)
    | none => ([], s)

/-- A full render pass of generate_filled_image_with_coordinates over a
schema: the drawing operations issued in field order, and the schema
object after the pass. -/
def renderPassWithCoordinates (s : Schema) (m : CoordMap)
    (imageWidth imageHeight : ℚ) : List DrawOp × Schema :=
  let collected := collectFields s
  (collected.1.flatMap (fun f => renderFieldWithCoordinates f m imageWidth imageHeight),
   collected.2)

/-- A full render pass of generate_filled_image over a schema. -/
def renderPassHeuristic (s : Schema) (imageWidth imageHeight : ℚ) :
    List DrawOp × Schema :=
  let collected := collectFields s
  (collected.1.flatMap (fun f => renderFieldHeuristic f imageWidth imageHeight),
   collected.2)

/-- Entries at even indices of the flat polygon list, the x coordinates
read by extract_field_coordinates. -/
def evenEntries : List ℚ → List ℚ
  | [] => []
  | [x] => [x]
  | x :: _ :: rest => x :: evenEntries rest

/-- Entries at odd indices of the flat polygon list, the y coordinates
read by extract_field_coordinates.  On a list of odd length the source
would fault; normalizeElement reports that case as an error before this
function is consulted. -/
def oddEntries : List ℚ → List ℚ
  | [] => []
  | [_] => []
  | _ :: y :: rest => y :: oddEntries rest

/-- Mean of the x coordinates of the flat polygon list. -/
def centroidX (polygon : List ℚ) : ℚ :=
  (evenEntries polygon).sum / (evenEntries polygon).length

/-- Mean of the y coordinates of the flat polygon list. -/
def centroidY (polygon : List ℚ) : ℚ :=
  (oddEntries polygon).sum / (oddEntries polygon).length

/-- Exceptions the per-element normalization of
extract_field_coordinates can raise in the source. -/
inductive PyError where
  | indexError
  | zeroDivisionError
  deriving DecidableEq, Repr

/-- Embedding of the per-element normalization of
CoordinateExtractor.extract_field_coordinates
(src/backend/server/enhanced_coordinate_extractor.py lines 240 to 255):
a polygon with fewer than four values fails the guard and the element is
skipped, yielding no coordinate; an odd-length polygon passing the guard
makes the odd-index read fault; a zero page width or height makes the
normalizing division raise; otherwise the vertex-mean centroid divided by
the page dimensions is the coordinate. -/
def normalizeElement (polygon : List ℚ) (pageWidth pageHeight : ℚ) :
    Except PyError (Option (ℚ × ℚ)) :=
  if polygon.length < 4 then Except.ok none
  else if polygon.length % 2 = 1 then Except.error PyError.indexError
  else if pageWidth = 0 then Except.error PyError.zeroDivisionError
  else if pageHeight = 0 then Except.error PyError.zeroDivisionError
  else Except.ok (some (centroidX polygon / pageWidth, centroidY polygon / pageHeight))

/-- Concrete field fixtures used by the concrete theorems below. -/
def fieldNamedLastName : Field :=
  Field.mk "x".data (some "Last Name".data) none (some "Doe".data)

/-- A field labelled Last Name with a filled value. -/
def fieldLastName : Field :=
  Field.mk "Last Name".data none none (some "Doe".data)

/-- C1 is false as stated: the exact tier of find_best_coordinate_match
compares candidate labels with the field label only, never with the field
name.  Here the sole candidate label equals the field name letter for
letter, yet the matcher returns no match at all rather than that
candidate's coordinate. -/
theorem C1_counterexample :
    fieldNamedLastName.name = some "Last Name".data ∧
    findBestCoordinateMatch fieldNamedLastName
      [("Last Name".data, (0.1, 0.1))] = none :=
  ⟨rfl, rfl⟩

/-- C1 (amended): whenever some candidate label equals the field label
under case-insensitive comparison, the matcher returns the coordinate of
the first such candidate in map order, regardless of any candidates
qualifying under the containment, token-overlap or semantic tiers; the
field name is never consulted. -/
theorem C1_exact_label_match_wins (field : Field) (m : CoordMap)
    (p : PyStr × ℚ × ℚ)
    (h : m.find? (fun q => pyLower q.1 == pyLower field.label) = some p) :
    findBestCoordinateMatch field m = some p.2 := by
  simp only [findBestCoordinateMatch, h]

/-- Witness for C1 at the spec example: candidates Last Name and Name,
field label Last Name; the exact candidate wins and the matcher returns
its coordinate. -/
theorem C1_exact_label_match_wins_witness :
    findBestCoordinateMatch fieldLastName
      [("Last Name".data, (0.1, 0.1)), ("Name".data, (0.2, 0.2))] =
      some (0.1, 0.1) :=
  C1_exact_label_match_wins fieldLastName _ ("Last Name".data, (0.1, 0.1)) rfl

/-- A field labelled Family Name with a filled value. -/
def fieldFamilyName : Field :=
  Field.mk "Family Name".data none none (some "Doe".data)

/-- C2 is false as stated: the label Family Name contains none of the
five keyword variations (the variation family_name has an underscore
where the label has a space), so a field labelled Family Name matched at
(0.3, 0.4) is rendered at the unadjusted coordinate; with unit image
dimensions the drawn y position is 0.4 times 1, and not 0.45. -/
theorem C2_counterexample :
    hasLastNameKeyword "Family Name".data = false ∧
    renderFieldWithCoordinates fieldFamilyName
      [("Family Name".data, (0.3, 0.4))] 1 1 =
      [DrawOp.text (0.3 * 1, 0.4 * 1) "Doe".data Color.black,
       DrawOp.textRect (0.3 * 1, 0.4 * 1) "Doe".data Color.blue] ∧
    (0.4 : ℚ) * 1 ≠ 0.45 * 1 :=
  ⟨rfl, rfl, by norm_num⟩

/-- C2 (amended): for every matched field that is rendered, the
adjustment adds exactly 0.05 to the normalized y coordinate, exactly
once, after matching and before denormalization, if and only if the
lowered label contains one of the variations last_name, lastname,
last name, surname, family_name as written there, underscores included;
in particular Family Name, containing none of them, is not adjusted,
while Last Name is. -/
theorem C2_adjustment_iff_keyword (field : Field) (m : CoordMap)
    (w h : ℚ) (v : PyStr) (c : ℚ × ℚ)
    (hv : field.value = some v) (hvs : (pyStrip v).isEmpty = false)
    (hm : findBestCoordinateMatch field m = some c) :
    renderFieldWithCoordinates field m w h =
      if hasLastNameKeyword field.label then
        [DrawOp.text (c.1 * w, (c.2 + 0.05) * h) v Color.black,
         DrawOp.textRect (c.1 * w, (c.2 + 0.05) * h) v Color.blue]
      else
        [DrawOp.text (c.1 * w, c.2 * h) v Color.black,
         DrawOp.textRect (c.1 * w, c.2 * h) v Color.blue] := by
  cases hk : hasLastNameKeyword field.label <;>
    simp only [renderFieldWithCoordinates, hv, hvs, hm, hk, Bool.false_eq_true,
      if_false, if_true]

/-- Witness for C2: a field labelled Last Name matched at (0.3, 0.4) on a
unit page is adjusted to y of 0.45 before denormalization. -/
theorem C2_adjustment_iff_keyword_witness :
    renderFieldWithCoordinates fieldLastName
      [("Last Name".data, (0.3, 0.4))] 1 1 =
      if hasLastNameKeyword fieldLastName.label then
        [DrawOp.text (0.3 * 1, (0.4 + 0.05) * 1) "Doe".data Color.black,
         DrawOp.textRect (0.3 * 1, (0.4 + 0.05) * 1) "Doe".data Color.blue]
      else
        [DrawOp.text (0.3 * 1, 0.4 * 1) "Doe".data Color.black,
         DrawOp.textRect (0.3 * 1, 0.4 * 1) "Doe".data Color.blue] :=
  C2_adjustment_iff_keyword fieldLastName _ 1 1 "Doe".data (0.3, 0.4) rfl rfl rfl

/-- A field labelled last name with a filled value, lower case. -/
def fieldLastNameLower : Field :=
  Field.mk "last name".data none none (some "Doe".data)

/-- C3 is false as stated: containment and token overlap are checked in
one combined pass, not as ordered tiers.  For field label last name and
candidates first name then last, the candidate last qualifies under
containment, the candidate first name qualifies only by token overlap
(neither label contains the other), yet the matcher returns the
coordinate of first name because it comes first in map order. -/
theorem C3_counterexample :
    pyContains "last name".data "last".data = true ∧
    pyContains "last name".data "first name".data = false ∧
    pyContains "first name".data "last name".data = false ∧
    combinedTierPred "last name".data "first name".data = true ∧
    findBestCoordinateMatch fieldLastNameLower
      [("first name".data, (0.2, 0.2)), ("last".data, (0.1, 0.1))] =
      some (0.2, 0.2) :=
  ⟨rfl, rfl, rfl, rfl, rfl⟩

/-- C3 (amended): after the exact tier fails, containment and token
overlap are evaluated together as one combined second tier in a single
pass over the candidate map in insertion order, and the first candidate
satisfying either condition wins, whether or not a later candidate would
satisfy containment. -/
theorem C3_combined_second_tier (field : Field) (m : CoordMap)
    (p : PyStr × ℚ × ℚ)
    (hex : m.find? (fun q => pyLower q.1 == pyLower field.label) = none)
    (hp : m.find? (fun q => combinedTierPred (pyLower field.label) (pyLower q.1)) =
      some p) :
    findBestCoordinateMatch field m = some p.2 := by
  simp only [findBestCoordinateMatch, hex, hp]

/-- Witness for C3 at the counterexample map: the combined tier returns
the token-overlap candidate first name because it comes first. -/
theorem C3_combined_second_tier_witness :
    findBestCoordinateMatch fieldLastNameLower
      [("first name".data, (0.2, 0.2)), ("last".data, (0.1, 0.1))] =
      some (0.2, 0.2) :=
  C3_combined_second_tier fieldLastNameLower _ ("first name".data, (0.2, 0.2))
    rfl rfl

/-- C4: for every flat polygon with at least two complete point pairs and
positive page dimensions, the normalizer computes the vertex-mean
centroid, the mean of the x entries and the mean of the y entries, not a
bounding-box center, divides it by the page dimensions, and the result
lies in the unit square whenever the centroid lies within the page
bounds. -/
theorem C4_normalizer_centroid_unit_square (polygon : List ℚ) (W H : ℚ)
    (h4 : 4 ≤ polygon.length) (hev : polygon.length % 2 = 0)
    (hW : 0 < W) (hH : 0 < H)
    (hx0 : 0 ≤ centroidX polygon) (hxW : centroidX polygon ≤ W)
    (hy0 : 0 ≤ centroidY polygon) (hyH : centroidY polygon ≤ H) :
    normalizeElement polygon W H =
      Except.ok (some (centroidX polygon / W, centroidY polygon / H)) ∧
    centroidX polygon = (evenEntries polygon).sum / (evenEntries polygon).length ∧
    centroidY polygon = (oddEntries polygon).sum / (oddEntries polygon).length ∧
    0 ≤ centroidX polygon / W ∧ centroidX polygon / W ≤ 1 ∧
    0 ≤ centroidY polygon / H ∧ centroidY polygon / H ≤ 1 := by
  refine ⟨?_, rfl, rfl, div_nonneg hx0 hW.le, (div_le_one hW).mpr hxW,
    div_nonneg hy0 hH.le, (div_le_one hH).mpr hyH⟩
  simp only [normalizeElement]
  rw [if_neg (by omega), if_neg (by omega), if_neg hW.ne', if_neg hH.ne']

/-- Witness for C4 at the triangle with vertices (0,0), (2,0), (1,3) on a
4 by 4 page: the centroid is (1,1) and the normalized point (1/4, 1/4)
lies in the unit square. -/
theorem C4_normalizer_centroid_unit_square_witness :
    normalizeElement [0, 0, 2, 0, 1, 3] 4 4 =
      Except.ok (some (centroidX [0, 0, 2, 0, 1, 3] / 4,
        centroidY [0, 0, 2, 0, 1, 3] / 4)) ∧
    centroidX [0, 0, 2, 0, 1, 3] =
      (evenEntries [0, 0, 2, 0, 1, 3]).sum / (evenEntries [0, 0, 2, 0, 1, 3]).length ∧
    centroidY [0, 0, 2, 0, 1, 3] =
      (oddEntries [0, 0, 2, 0, 1, 3]).sum / (oddEntries [0, 0, 2, 0, 1, 3]).length ∧
    0 ≤ centroidX [0, 0, 2, 0, 1, 3] / 4 ∧ centroidX [0, 0, 2, 0, 1, 3] / 4 ≤ 1 ∧
    0 ≤ centroidY [0, 0, 2, 0, 1, 3] / 4 ∧ centroidY [0, 0, 2, 0, 1, 3] / 4 ≤ 1 :=
  C4_normalizer_centroid_unit_square [0, 0, 2, 0, 1, 3] 4 4
    (by norm_num) (by norm_num) (by norm_num) (by norm_num)
    (by norm_num [centroidX, evenEntries])
    (by norm_num [centroidX, evenEntries])
    (by norm_num [centroidY, oddEntries])
    (by norm_num [centroidY, oddEntries])

/-- C5 is false as stated: an element whose polygon is well formed but
whose page width is zero is not skipped; the normalizing division raises
a ZeroDivisionError that propagates to the caller. -/
theorem C5_counterexample :
    normalizeElement [1, 2, 3, 4] 0 5 = Except.error PyError.zeroDivisionError := by
  norm_num [normalizeElement]

/-- C5 (amended): an element whose polygon has fewer than two point pairs
is skipped locally, producing no coordinate and no error; but when the
page width or height is zero and the polygon passes the length guard, the
normalizing division raises a ZeroDivisionError that propagates, rather
than the element being skipped. -/
theorem C5_short_skipped_zero_dims_raise (polygon : List ℚ) (W H : ℚ)
    (hshort : polygon.length < 4)
    (polygon2 : List ℚ) (W2 H2 : ℚ)
    (h4 : 4 ≤ polygon2.length) (hev : polygon2.length % 2 = 0)
    (hz : W2 = 0 ∨ H2 = 0) :
    normalizeElement polygon W H = Except.ok none ∧
    normalizeElement polygon2 W2 H2 = Except.error PyError.zeroDivisionError := by
  constructor
  · simp only [normalizeElement, if_pos hshort]
  · simp only [normalizeElement]
    rw [if_neg (by omega), if_neg (by omega)]
    rcases hz with hw | hh
    · rw [if_pos hw]
    · by_cases hw : W2 = 0
      · rw [if_pos hw]
      · rw [if_neg hw, if_pos hh]

/-- Witness for C5: a two-value polygon on a 7 by 7 page is skipped with
no error, while a four-value polygon on a page of zero width raises. -/
theorem C5_short_skipped_zero_dims_raise_witness :
    normalizeElement [1, 2] 7 7 = Except.ok none ∧
    normalizeElement [0, 0, 1, 1] 0 3 = Except.error PyError.zeroDivisionError :=
  C5_short_skipped_zero_dims_raise [1, 2] 7 7 (by norm_num)
    [0, 0, 1, 1] 0 3 (by norm_num) (by norm_num) (Or.inl rfl)

/-- Is the drawing operation the bounding rectangle around a text extent. -/
def DrawOp.isRect : DrawOp → Bool
  | .text _ _ _ => false
  | .textRect _ _ _ => true

/-- The fill or outline color of a drawing operation. -/
def DrawOp.colorOf : DrawOp → Color
  | .text _ _ c => c
  | .textRect _ _ c => c

/-- A field labelled Unknown Field with a filled value. -/
def fieldUnknown : Field :=
  Field.mk "Unknown Field".data none none (some "X".data)

/-- A field labelled City with a filled value. -/
def fieldCity : Field :=
  Field.mk "City".data none none (some "Rome".data)

/-- C6: a rendered field whose label matches no candidate is drawn in red
at the heuristic estimate; the estimate defaults to the bottom-of-page
position, 0.3 of the width and 0.85 of the height, when the label
contains none of the keywords of the estimate table; a matched field is
drawn in black with a blue rectangle. -/
theorem C6_unmatched_red_fallback (field : Field) (m : CoordMap) (w h : ℚ)
    (v : PyStr) (hv : field.value = some v) (hvs : (pyStrip v).isEmpty = false)
    (hnone : findBestCoordinateMatch field m = none)
    (field2 : Field) (m2 : CoordMap) (w2 h2 : ℚ) (v2 : PyStr) (c2 : ℚ × ℚ)
    (hv2 : field2.value = some v2) (hvs2 : (pyStrip v2).isEmpty = false)
    (hsome : findBestCoordinateMatch field2 m2 = some c2) :
    renderFieldWithCoordinates field m w h =
      [DrawOp.text (estimateFieldPosition field w h) v Color.red] ∧
    (estimateKeywords.all (fun k => !pyContains (pyLower field.label) k) = true →
      estimateFieldPosition field w h = (w * 0.3, h * 0.85)) ∧
    (renderFieldWithCoordinates field2 m2 w2 h2).map DrawOp.colorOf =
      [Color.black, Color.blue] := by
  refine ⟨?_, ?_, ?_⟩
  · simp [renderFieldWithCoordinates, hv, hvs, hnone]
  · intro hnk
    simp only [estimateKeywords, List.all_cons, List.all_nil, Bool.and_eq_true,
      Bool.not_eq_true', Bool.and_true] at hnk
    obtain ⟨k1, k2, k3, k4, k5, k6, k7, k8, k9, k10⟩ := hnk
    simp [estimateFieldPosition, k1, k2, k3, k4, k5, k6, k7, k8, k9, k10]
  · cases hk : hasLastNameKeyword field2.label <;>
      simp [renderFieldWithCoordinates, hv2, hvs2, hsome, hk, DrawOp.colorOf]

/-- Witness for C6: with an empty coordinate map the field Unknown Field
with value X is drawn in red at the default bottom-of-page estimate,
0.3 of the width and 0.85 of the height, while the field City matched at
(0.3, 0.6) is drawn in black with a blue rectangle. -/
theorem C6_unmatched_red_fallback_witness :
    renderFieldWithCoordinates fieldUnknown [] 100 200 =
      [DrawOp.text (estimateFieldPosition fieldUnknown 100 200) "X".data Color.red] ∧
    estimateFieldPosition fieldUnknown 100 200 = (100 * 0.3, 200 * 0.85) ∧
    (renderFieldWithCoordinates fieldCity [("city".data, (0.3, 0.6))] 10 10).map
      DrawOp.colorOf = [Color.black, Color.blue] :=
  have h := C6_unmatched_red_fallback fieldUnknown [] 100 200 "X".data rfl rfl rfl
    fieldCity [("city".data, (0.3, 0.6))] 10 10 "Rome".data (0.3, 0.6) rfl rfl rfl
  ⟨h.1, h.2.1 rfl, h.2.2⟩

/-- A field whose value is whitespace only. -/
def fieldWhitespace : Field :=
  Field.mk "Notes".data none none (some "  ".data)

/-- C7: a field whose value is absent, empty or whitespace-only is
silently skipped by both renderers, issuing no drawing operation, and a
render pass over a field list containing it issues exactly the
operations of the pass over the list without it. -/
theorem C7_empty_value_skipped (field : Field) (m : CoordMap) (w h : ℚ)
    (hempty : field.value = none ∨
      ∃ v, field.value = some v ∧ (pyStrip v).isEmpty = true) :
    renderFieldWithCoordinates field m w h = [] ∧
    renderFieldHeuristic field w h = [] ∧
    ∀ pre post : List Field,
      (pre ++ field :: post).flatMap (fun f => renderFieldWithCoordinates f m w h) =
      (pre ++ post).flatMap (fun f => renderFieldWithCoordinates f m w h) := by
  have h1 : renderFieldWithCoordinates field m w h = [] := by
    rcases hempty with hn | ⟨v, hv, hs⟩
    · simp [renderFieldWithCoordinates, hn]
    · simp [renderFieldWithCoordinates, hv, hs]
  have h2 : renderFieldHeuristic field w h = [] := by
    rcases hempty with hn | ⟨v, hv, hs⟩
    · simp [renderFieldHeuristic, hn]
    · simp [renderFieldHeuristic, hv, hs]
  refine ⟨h1, h2, fun pre post => ?_⟩
  simp [List.flatMap_append, h1]

/-- Witness for C7: the whitespace-valued field issues no operation and
contributes nothing to a pass that also renders the field City. -/
theorem C7_empty_value_skipped_witness :
    renderFieldWithCoordinates fieldWhitespace [] 5 5 = [] ∧
    renderFieldHeuristic fieldWhitespace 5 5 = [] ∧
    ([fieldCity, fieldWhitespace]).flatMap
      (fun f => renderFieldWithCoordinates f [] 5 5) =
    ([fieldCity]).flatMap (fun f => renderFieldWithCoordinates f [] 5 5) :=
  have h := C7_empty_value_skipped fieldWhitespace [] 5 5
    (Or.inr ⟨"  ".data, rfl, rfl⟩)
  ⟨h.1, h.2.1, h.2.2 [fieldCity] []⟩

/-- C8 is false as stated: a field rendered at the fallback heuristic
position by the coordinate renderer receives only red text; no bounding
rectangle is drawn for it. -/
theorem C8_counterexample :
    renderFieldWithCoordinates fieldUnknown [] 100 100 =
      [DrawOp.text (estimateFieldPosition fieldUnknown 100 100) "X".data Color.red] ∧
    (renderFieldWithCoordinates fieldUnknown [] 100 100).countP
      (fun op => op.isRect) = 0 :=
  ⟨rfl, rfl⟩

/-- C8 (amended): the coordinate renderer draws exactly one bounding
rectangle for a matched field, and the heuristic renderer draws exactly
one for every rendered field, but a field that falls back to heuristic
positioning inside the coordinate renderer is drawn as red text only,
with no rectangle. -/
theorem C8_rect_for_matched_only (field : Field) (m : CoordMap) (w h : ℚ)
    (v : PyStr) (c : ℚ × ℚ)
    (hv : field.value = some v) (hvs : (pyStrip v).isEmpty = false)
    (hsome : findBestCoordinateMatch field m = some c)
    (field2 : Field) (w2 h2 : ℚ) (v2 : PyStr)
    (hv2 : field2.value = some v2) (hvs2 : (pyStrip v2).isEmpty = false)
    (field3 : Field) (m3 : CoordMap) (w3 h3 : ℚ) (v3 : PyStr)
    (hv3 : field3.value = some v3) (hvs3 : (pyStrip v3).isEmpty = false)
    (hnone3 : findBestCoordinateMatch field3 m3 = none) :
    (renderFieldWithCoordinates field m w h).countP (fun op => op.isRect) = 1 ∧
    (renderFieldHeuristic field2 w2 h2).countP (fun op => op.isRect) = 1 ∧
    renderFieldWithCoordinates field3 m3 w3 h3 =
      [DrawOp.text (estimateFieldPosition field3 w3 h3) v3 Color.red] ∧
    (renderFieldWithCoordinates field3 m3 w3 h3).countP
      (fun op => op.isRect) = 0 := by
  have h3 : renderFieldWithCoordinates field3 m3 w3 h3 =
      [DrawOp.text (estimateFieldPosition field3 w3 h3) v3 Color.red] := by
    simp [renderFieldWithCoordinates, hv3, hvs3, hnone3]
  refine ⟨?_, ?_, h3, ?_⟩
  · cases hk : hasLastNameKeyword field.label <;>
      simp [renderFieldWithCoordinates, hv, hvs, hsome, hk, List.countP_cons,
        DrawOp.isRect]
  · simp [renderFieldHeuristic, hv2, hvs2, List.countP_cons, DrawOp.isRect]
  · simp [h3, List.countP_cons, DrawOp.isRect]

/-- Witness for C8: the matched field City gets text plus one rectangle,
the heuristic renderer gives the field Unknown Field one rectangle, and
the coordinate renderer gives the unmatched field Unknown Field red text
with no rectangle. -/
theorem C8_rect_for_matched_only_witness :
    (renderFieldWithCoordinates fieldCity [("city".data, (0.3, 0.6))] 10 10).countP
      (fun op => op.isRect) = 1 ∧
    (renderFieldHeuristic fieldUnknown 10 10).countP (fun op => op.isRect) = 1 ∧
    renderFieldWithCoordinates fieldUnknown [] 10 10 =
      [DrawOp.text (estimateFieldPosition fieldUnknown 10 10) "X".data Color.red] ∧
    (renderFieldWithCoordinates fieldUnknown [] 10 10).countP
      (fun op => op.isRect) = 0 :=
  C8_rect_for_matched_only fieldCity [("city".data, (0.3, 0.6))] 10 10
    "Rome".data (0.3, 0.6) rfl rfl rfl
    fieldUnknown 10 10 "X".data rfl rfl
    fieldUnknown [] 10 10 "X".data rfl rfl rfl

/-- A schema with a present but empty fields list and one section. -/
def schemaEmptyFieldsWithSection : Schema :=
  Schema.mk (some []) (some [FormSection.mk [fieldCity]])

/-- A schema with a nonempty fields list and one section. -/
def schemaFieldsAndSection : Schema :=
  Schema.mk (some [fieldCity]) (some [FormSection.mk [fieldUnknown]])

/-- C9 is false as stated: when the schema holds a present but empty
fields list together with sections, the field-collection prologue
appends the section fields into the very list stored in the schema, so
the render pass hands back a schema whose fields list has changed. -/
theorem C9_counterexample :
    (renderPassWithCoordinates schemaEmptyFieldsWithSection [] 100 100).2 =
      Schema.mk (some [fieldCity]) (some [FormSection.mk [fieldCity]]) ∧
    (renderPassWithCoordinates schemaEmptyFieldsWithSection [] 100 100).2 ≠
      schemaEmptyFieldsWithSection :=
  ⟨rfl, by decide⟩

/-- C9 (amended): a full render pass leaves the schema object unchanged
except in one case: when the schema holds a present but empty fields
list together with a sections key, the flattened section fields are
written into the schema's fields list by the collection prologue. -/
theorem C9_schema_unchanged_unless_aliased (s : Schema) (m : CoordMap)
    (w h : ℚ) (hna : s.fields ≠ some [] ∨ s.sections = none)
    (s2 : Schema) (m2 : CoordMap) (w2 h2 : ℚ) (secs : List FormSection)
    (hf2 : s2.fields = some []) (hs2 : s2.sections = some secs) :
    (renderPassWithCoordinates s m w h).2 = s ∧
    (renderPassHeuristic s w h).2 = s ∧
    (renderPassWithCoordinates s2 m2 w2 h2).2 =
      Schema.mk (some (secs.flatMap FormSection.fields)) (some secs) := by
  have hcf : (collectFields s).2 = s := by
    rcases hf : s.fields with _ | fl
    · rcases hsec : s.sections with _ | secs0 <;> simp [collectFields, hf, hsec]
    · rcases fl with _ | ⟨f, fs⟩
      · rcases hna with hna | hna
        · exact absurd hf hna
        · simp [collectFields, hf, hna]
      · simp [collectFields, hf]
  have hcf2 : (collectFields s2).2 =
      Schema.mk (some (secs.flatMap FormSection.fields)) (some secs) := by
    simp [collectFields, hf2, hs2]
  exact ⟨by simp [renderPassWithCoordinates, hcf],
    by simp [renderPassHeuristic, hcf],
    by simp [renderPassWithCoordinates, hcf2]⟩

/-- Witness for C9: a pass over a schema with a nonempty fields list
hands the schema back unchanged by both renderers, while a pass over a
schema with an empty fields list and a section writes that section's
fields into the schema. -/
theorem C9_schema_unchanged_unless_aliased_witness :
    (renderPassWithCoordinates schemaFieldsAndSection [] 9 9).2 =
      schemaFieldsAndSection ∧
    (renderPassHeuristic schemaFieldsAndSection 9 9).2 =
      schemaFieldsAndSection ∧
    (renderPassWithCoordinates schemaEmptyFieldsWithSection [] 9 9).2 =
      Schema.mk (some ([FormSection.mk [fieldCity]].flatMap FormSection.fields))
        (some [FormSection.mk [fieldCity]]) :=
  C9_schema_unchanged_unless_aliased schemaFieldsAndSection [] 9 9
    (Or.inl (by decide)) schemaEmptyFieldsWithSection [] 9 9
    [FormSection.mk [fieldCity]] rfl rfl

/-- C10: the fields nested in sections enter the processed field
sequence only when the top-level fields list is absent or empty; when
the fields list is nonempty the operations of a full pass are exactly
those of the top-level fields, for both renderers, and the section
fields are never consulted. -/
theorem C10_sections_only_when_fields_empty (s : Schema) (m : CoordMap)
    (w h : ℚ) (f : Field) (fs : List Field) (hf : s.fields = some (f :: fs))
    (s2 : Schema) (secs : List FormSection)
    (hf2 : s2.fields = none ∨ s2.fields = some [])
    (hs2 : s2.sections = some secs) :
    (collectFields s).1 = f :: fs ∧
    (renderPassWithCoordinates s m w h).1 =
      (f :: fs).flatMap (fun fld => renderFieldWithCoordinates fld m w h) ∧
    (renderPassHeuristic s w h).1 =
      (f :: fs).flatMap (fun fld => renderFieldHeuristic fld w h) ∧
    (collectFields s2).1 = secs.flatMap FormSection.fields := by
  have h1 : (collectFields s).1 = f :: fs := by simp [collectFields, hf]
  have h4 : (collectFields s2).1 = secs.flatMap FormSection.fields := by
    rcases hf2 with hf2 | hf2 <;> simp [collectFields, hf2, hs2]
  exact ⟨h1, by simp [renderPassWithCoordinates, h1],
    by simp [renderPassHeuristic, h1], h4⟩

/-- Witness for C10: a schema holding the field City in its fields list
and the field Unknown Field in a section renders only City, and a schema
with no fields key and the same section hands the section fields to the
pass. -/
theorem C10_sections_only_when_fields_empty_witness :
    (collectFields schemaFieldsAndSection).1 = [fieldCity] ∧
    (renderPassWithCoordinates schemaFieldsAndSection [] 9 9).1 =
      [fieldCity].flatMap (fun fld => renderFieldWithCoordinates fld [] 9 9) ∧
    (renderPassHeuristic schemaFieldsAndSection 9 9).1 =
      [fieldCity].flatMap (fun fld => renderFieldHeuristic fld 9 9) ∧
    (collectFields (Schema.mk none (some [FormSection.mk [fieldUnknown]]))).1 =
      [FormSection.mk [fieldUnknown]].flatMap FormSection.fields :=
  C10_sections_only_when_fields_empty schemaFieldsAndSection [] 9 9
    fieldCity [] rfl (Schema.mk none (some [FormSection.mk [fieldUnknown]]))
    [FormSection.mk [fieldUnknown]] (Or.inl rfl) rfl

end FillAI
